import Mathlib

set_option maxRecDepth 100000

/-!
Verification of the token/checksum service in `main.py`.

The generation logic is embedded shallowly: bytes are `Nat` values below 256,
machine words are `Nat` values reduced modulo `2 ^ 32` wherever the Python
`hashlib` primitives would wrap, and the `secrets.token_hex(8)` entropy draws
are made explicit as a function from the draw index to the drawn bytes.
-/

/-- Modulus for 32-bit words. -/
def w32 : Nat := 4294967296

/-- Bitmask of 32 one bits, used for the bitwise complement of a 32-bit word. -/
def mask32 : Nat := 4294967295

/-- Left-rotation of a 32-bit word by `n` bits (for `x < w32`, `n ≤ 32`). -/
def rotl32 (x n : Nat) : Nat :=
  ((x <<< n) % w32) ||| (x >>> (32 - n))

/-- Right-rotation of a 32-bit word by `n` bits (for `x < w32`, `n ≤ 32`). -/
def rotr32 (x n : Nat) : Nat :=
  (x >>> n) ||| ((x <<< (32 - n)) % w32)

/-- The hexadecimal digit character for `n < 16`, lowercase as the Python
`hexdigest` method produces it. -/
def hexDigit (n : Nat) : Char :=
  if n < 10 then Char.ofNat (48 + n) else Char.ofNat (87 + n)

/-- The two hexadecimal digit characters of one byte, high nibble first. -/
def byteToHex (b : Nat) : List Char :=
  [hexDigit (b / 16), hexDigit (b % 16)]

/-- The lowercase hexadecimal rendering of a byte sequence, as the Python
`hexdigest` method renders a digest. -/
def bytesToHex (bs : List Nat) : String :=
  String.mk (bs.map byteToHex).flatten

/-- UTF-8 encoding of one Unicode code point. -/
def utf8EncodeChar (c : Nat) : List Nat :=
  if c < 128 then [c]
  else if c < 2048 then [192 ||| (c >>> 6), 128 ||| (c &&& 63)]
  else if c < 65536 then
    [224 ||| (c >>> 12), 128 ||| ((c >>> 6) &&& 63), 128 ||| (c &&& 63)]
  else
    [240 ||| (c >>> 18), 128 ||| ((c >>> 12) &&& 63),
     128 ||| ((c >>> 6) &&& 63), 128 ||| (c &&& 63)]

/-- UTF-8 encoding of a string, the byte sequence that
`text.encode("utf-8")` produces in Python. -/
def utf8Encode (s : String) : List Nat :=
  (s.data.map (fun c => utf8EncodeChar c.toNat)).flatten

/-- Four little-endian bytes of a 32-bit word. -/
def wordLE (x : Nat) : List Nat :=
  [x % 256, (x >>> 8) % 256, (x >>> 16) % 256, (x >>> 24) % 256]

/-- Four big-endian bytes of a 32-bit word. -/
def wordBE (x : Nat) : List Nat :=
  [(x >>> 24) % 256, (x >>> 16) % 256, (x >>> 8) % 256, x % 256]

/-- Little-endian 32-bit words of a byte sequence. -/
def toWordsLE : List Nat → List Nat
  | b0 :: b1 :: b2 :: b3 :: rest =>
    (b0 + (b1 <<< 8) + (b2 <<< 16) + (b3 <<< 24)) :: toWordsLE rest
  | _ => []

/-- Big-endian 32-bit words of a byte sequence. -/
def toWordsBE : List Nat → List Nat
  | b0 :: b1 :: b2 :: b3 :: rest =>
    ((b0 <<< 24) + (b1 <<< 16) + (b2 <<< 8) + b3) :: toWordsBE rest
  | _ => []

/-- Split a byte sequence into `n` consecutive 64-byte blocks. -/
def chunksN : Nat → List Nat → List (List Nat)
  | 0, _ => []
  | n + 1, l => l.take 64 :: chunksN n (l.drop 64)

/-- Split a byte sequence whose length is a multiple of 64 into its 64-byte
blocks. -/
def chunks64 (l : List Nat) : List (List Nat) :=
  chunksN (l.length / 64) l

/-- Eight little-endian bytes of a 64-bit length field. -/
def lenBytesLE (n : Nat) : List Nat :=
  [n % 256, (n >>> 8) % 256, (n >>> 16) % 256, (n >>> 24) % 256,
   (n >>> 32) % 256, (n >>> 40) % 256, (n >>> 48) % 256, (n >>> 56) % 256]

/-- Eight big-endian bytes of a 64-bit length field. -/
def lenBytesBE (n : Nat) : List Nat :=
  [(n >>> 56) % 256, (n >>> 48) % 256, (n >>> 40) % 256, (n >>> 32) % 256,
   (n >>> 24) % 256, (n >>> 16) % 256, (n >>> 8) % 256, n % 256]

/-- Merkle–Damgård padding: one `0x80` byte, zero bytes up to 56 mod 64, then
the 64-bit bit length, rendered by `lenBytes` (little-endian for MD5,
big-endian for SHA-256). -/
def padMessage (lenBytes : Nat → List Nat) (msg : List Nat) : List Nat :=
  msg ++ 128 :: List.replicate ((120 - (msg.length + 1) % 64) % 64) 0
      ++ lenBytes (msg.length * 8)

/-- State of both compression functions: named 32-bit working variables. -/
structure Words4 where
  a : Nat
  b : Nat
  c : Nat
  d : Nat
deriving DecidableEq

/-- MD5 round constants `K[0..63]` (RFC 1321). -/
def md5K : List Nat :=
  [0xd76aa478, 0xe8c7b756, 0x242070db, 0xc1bdceee,
   0xf57c0faf, 0x4787c62a, 0xa8304613, 0xfd469501,
   0x698098d8, 0x8b44f7af, 0xffff5bb1, 0x895cd7be,
   0x6b901122, 0xfd987193, 0xa679438e, 0x49b40821,
   0xf61e2562, 0xc040b340, 0x265e5a51, 0xe9b6c7aa,
   0xd62f105d, 0x02441453, 0xd8a1e681, 0xe7d3fbc8,
   0x21e1cde6, 0xc33707d6, 0xf4d50d87, 0x455a14ed,
   0xa9e3e905, 0xfcefa3f8, 0x676f02d9, 0x8d2a4c8a,
   0xfffa3942, 0x8771f681, 0x6d9d6122, 0xfde5380c,
   0xa4beea44, 0x4bdecfa9, 0xf6bb4b60, 0xbebfbc70,
   0x289b7ec6, 0xeaa127fa, 0xd4ef3085, 0x04881d05,
   0xd9d4d039, 0xe6db99e5, 0x1fa27cf8, 0xc4ac5665,
   0xf4292244, 0x432aff97, 0xab9423a7, 0xfc93a039,
   0x655b59c3, 0x8f0ccc92, 0xffeff47d, 0x85845dd1,
   0x6fa87e4f, 0xfe2ce6e0, 0xa3014314, 0x4e0811a1,
   0xf7537e82, 0xbd3af235, 0x2ad7d2bb, 0xeb86d391]

/-- MD5 per-round left-rotation amounts `s[0..63]`. -/
def md5S : List Nat :=
  [7, 12, 17, 22, 7, 12, 17, 22, 7, 12, 17, 22, 7, 12, 17, 22,
   5, 9, 14, 20, 5, 9, 14, 20, 5, 9, 14, 20, 5, 9, 14, 20,
   4, 11, 16, 23, 4, 11, 16, 23, 4, 11, 16, 23, 4, 11, 16, 23,
   6, 10, 15, 21, 6, 10, 15, 21, 6, 10, 15, 21, 6, 10, 15, 21]

/-- MD5 nonlinear function of round `i` applied to `b, c, d`. -/
def md5F (i b c d : Nat) : Nat :=
  if i < 16 then (b &&& c) ||| ((mask32 ^^^ b) &&& d)
  else if i < 32 then (d &&& b) ||| ((mask32 ^^^ d) &&& c)
  else if i < 48 then b ^^^ c ^^^ d
  else c ^^^ (b ||| (mask32 ^^^ d))

/-- MD5 message-word index of round `i`. -/
def md5G (i : Nat) : Nat :=
  if i < 16 then i
  else if i < 32 then (5 * i + 1) % 16
  else if i < 48 then (3 * i + 5) % 16
  else (7 * i) % 16

/-- One MD5 round: rotate the working variables, mixing word `md5G i`. -/
def md5Round (m : Nat → Nat) (st : Words4) (i : Nat) : Words4 :=
  let f := (md5F i st.b st.c st.d + st.a + md5K.getD i 0 + m (md5G i)) % w32
  ⟨st.d, (st.b + rotl32 f (md5S.getD i 0)) % w32, st.b, st.c⟩

/-- MD5 initial state (RFC 1321). -/
def md5Init : Words4 :=
  ⟨0x67452301, 0xefcdab89, 0x98badcfe, 0x10325476⟩

/-- MD5 compression of one 64-byte block into the running state. -/
def md5Block (st : Words4) (block : List Nat) : Words4 :=
  let ws := toWordsLE block
  let r := (List.range 64).foldl (md5Round fun g => ws.getD g 0) st
  ⟨(st.a + r.a) % w32, (st.b + r.b) % w32, (st.c + r.c) % w32, (st.d + r.d) % w32⟩

/-- MD5 digest (16 bytes) of a byte sequence. -/
def md5Bytes (msg : List Nat) : List Nat :=
  let st := (chunks64 (padMessage lenBytesLE msg)).foldl md5Block md5Init
  wordLE st.a ++ wordLE st.b ++ wordLE st.c ++ wordLE st.d

/-- `_checksum_md5` of `main.py`: the lowercase-hex MD5 digest of the UTF-8
encoding of the text. -/
def checksum_md5 (text : String) : String :=
  bytesToHex (md5Bytes (utf8Encode text))

/-- State of the SHA-256 compression function: eight named 32-bit working
variables. -/
structure Words8 where
  a : Nat
  b : Nat
  c : Nat
  d : Nat
  e : Nat
  f : Nat
  g : Nat
  h : Nat
deriving DecidableEq

/-- SHA-256 round constants `K[0..63]` (FIPS 180-4). -/
def sha256K : List Nat :=
  [1116352408, 1899447441, 3049323471, 3921009573, 961987163, 1508970993,
   2453635748, 2870763221, 3624381080, 310598401, 607225278, 1426881987,
   1925078388, 2162078206, 2614888103, 3248222580, 3835390401, 4022224774,
   264347078, 604807628, 770255983, 1249150122, 1555081692, 1996064986,
   2554220882, 2821834349, 2952996808, 3210313671, 3336571891, 3584528711,
   113926993, 338241895, 666307205, 773529912, 1294757372, 1396182291,
   1695183700, 1986661051, 2177026350, 2456956037, 2730485921, 2820302411,
   3259730800, 3345764771, 3516065817, 3600352804, 4094571909, 275423344,
   430227734, 506948616, 659060556, 883997877, 958139571, 1322822218,
   1537002063, 1747873779, 1955562222, 2024104815, 2227730452, 2361852424,
   2428436474, 2756734187, 3204031479, 3329325298]

/-- SHA-256 initial hash value (FIPS 180-4). -/
def sha256Init : Words8 :=
  ⟨1779033703, 3144134277, 1013904242, 2773480762,
   1359893119, 2600822924, 528734635, 1541459225⟩

/-- SHA-256 small sigma 0, used in the message schedule. -/
def ssig0 (x : Nat) : Nat :=
  rotr32 x 7 ^^^ rotr32 x 18 ^^^ (x >>> 3)

/-- SHA-256 small sigma 1, used in the message schedule. -/
def ssig1 (x : Nat) : Nat :=
  rotr32 x 17 ^^^ rotr32 x 19 ^^^ (x >>> 10)

/-- Extend the 16 block words to the 64-word SHA-256 message schedule. -/
def sha256Schedule (w16 : List Nat) : List Nat :=
  (List.range 48).foldl
    (fun w j =>
      w ++ [(w.getD (j + 0) 0 + ssig0 (w.getD (j + 1) 0)
             + w.getD (j + 9) 0 + ssig1 (w.getD (j + 14) 0)) % w32])
    w16

/-- One SHA-256 compression round with schedule word `w i`. -/
def sha256Round (w : Nat → Nat) (st : Words8) (i : Nat) : Words8 :=
  let bigS1 := rotr32 st.e 6 ^^^ rotr32 st.e 11 ^^^ rotr32 st.e 25
  let ch := (st.e &&& st.f) ^^^ ((mask32 ^^^ st.e) &&& st.g)
  let t1 := (st.h + bigS1 + ch + sha256K.getD i 0 + w i) % w32
  let bigS0 := rotr32 st.a 2 ^^^ rotr32 st.a 13 ^^^ rotr32 st.a 22
  let maj := (st.a &&& st.b) ^^^ (st.a &&& st.c) ^^^ (st.b &&& st.c)
  let t2 := (bigS0 + maj) % w32
  ⟨(t1 + t2) % w32, st.a, st.b, st.c, (st.d + t1) % w32, st.e, st.f, st.g⟩

/-- SHA-256 compression of one 64-byte block into the running state. -/
def sha256Block (st : Words8) (block : List Nat) : Words8 :=
  let ws := sha256Schedule (toWordsBE block)
  let r := (List.range 64).foldl (sha256Round fun i => ws.getD i 0) st
  ⟨(st.a + r.a) % w32, (st.b + r.b) % w32, (st.c + r.c) % w32, (st.d + r.d) % w32,
   (st.e + r.e) % w32, (st.f + r.f) % w32, (st.g + r.g) % w32, (st.h + r.h) % w32⟩

/-- SHA-256 digest (32 bytes) of a byte sequence. -/
def sha256Bytes (msg : List Nat) : List Nat :=
  let st := (chunks64 (padMessage lenBytesBE msg)).foldl sha256Block sha256Init
  wordBE st.a ++ wordBE st.b ++ wordBE st.c ++ wordBE st.d
    ++ wordBE st.e ++ wordBE st.f ++ wordBE st.g ++ wordBE st.h

/-- The lowercase-hex SHA-256 digest of the UTF-8 encoding of a string, the
value `hashlib.sha256(s.encode("utf-8")).hexdigest()` computes in Python. -/
def sha256Hex (s : String) : String :=
  bytesToHex (sha256Bytes (utf8Encode s))

/-- An entropy source for one run: the bytes returned by the draw with index
`i`, that is, by the `i`-th call to `secrets.token_hex(8)` in the run. -/
abbrev Entropy := Nat → List Nat

/-- `secrets.token_hex` applied to the bytes the entropy source returned for
one draw: Python draws the requested number of random bytes and renders them
as lowercase hex; here the drawn bytes are an explicit argument. -/
def token_hex (randomBytes : List Nat) : String :=
  bytesToHex randomBytes

/-- `_generate_tokens_from_text` of `main.py`: starting from an empty list,
iteration `i` draws a salt with `secrets.token_hex(8)` — the bytes drawn at
iteration `i` are `salts i` — and appends the lowercase-hex SHA-256 digest of
the combined string built by the Python format string `f"{text}-{i}-{salt}"`. -/
def generate_tokens_from_text (text : String) (count : Nat) (salts : Entropy) : List String :=
  (List.range count).foldl
    (fun tokens i =>
      let salt := token_hex (salts i)
      let token := sha256Hex (text ++ "-" ++ toString i ++ "-" ++ salt)
      tokens ++ [token])
    []

/-- JSON values, as far as the request bodies of this service need them. -/
inductive Json where
  | null
  | bool (b : Bool)
  | num (n : Int)
  | str (s : String)
  | arr (elements : List Json)
  | obj (fields : List (String × Json))

/-- The value of the first field named `key` in the field list of a JSON
object. -/
def lookupField : List (String × Json) → String → Option Json
  | [], _ => none
  | (k, v) :: rest, key => if k = key then some v else lookupField rest key

/-- Whether a JSON value is an object. -/
def Json.isObj : Json → Bool
  | .obj _ => true
  | _ => false

/-- The pydantic model `TextOnly` of `main.py`: a single required field
`text` of type `str`. -/
structure TextOnly where
  text : String
deriving DecidableEq

/-- A validation failure, carrying the offending field. -/
inductive ValidationIssue where
  | missing (field : String)
  | wrongType (field : String)
deriving DecidableEq

/-- Validation of a request body against the `TextOnly` model, as the pydantic
layer FastAPI runs on the declared schema: succeed exactly when the body is a
JSON object whose `text` field is a string; otherwise report the offending
field (the whole body when the body is not even an object). -/
def validateTextOnly (body : Json) : Except ValidationIssue TextOnly :=
  match body with
  | .obj fields =>
    match lookupField fields "text" with
    | some (.str s) => .ok ⟨s⟩
    | some _ => .error (.wrongType "text")
    | none => .error (.missing "text")
  | _ => .error (.wrongType "body")

/-- Response of the `/checksum` endpoint: the dict
`{"text": ..., "checksum": ...}` it returns. -/
structure ChecksumResponse where
  text : String
  checksum : String
deriving DecidableEq

/-- The `TokensResponse` model of `main.py`. -/
structure TokensResponse where
  tokens : List String
  checksum : String
deriving DecidableEq

/-- `checksum_endpoint` of `main.py` on a validated body. -/
def checksum_endpoint (body : TextOnly) : ChecksumResponse :=
  ⟨body.text, checksum_md5 body.text⟩

/-- `tokens_endpoint` of `main.py` on a validated body, with the entropy the
five `secrets.token_hex(8)` draws consume made explicit. -/
def tokens_endpoint (body : TextOnly) (salts : Entropy) : TokensResponse :=
  ⟨generate_tokens_from_text body.text 5 salts, checksum_md5 body.text⟩

/-- Outcome of one POST endpoint invocation after body validation: a 200
payload or a 422 validation error. -/
inductive HandlerResult (α : Type) where
  | ok (value : α)
  | invalid (issue : ValidationIssue)
deriving DecidableEq

/-- HTTP status of a handler outcome: 200 on success, 422 on a validation
error (the FastAPI status for request-body validation failures). -/
def handlerStatus {α : Type} : HandlerResult α → Nat
  | .ok _ => 200
  | .invalid _ => 422

/-- The field a 422 outcome reports as offending, if any. -/
def offendingField {α : Type} : HandlerResult α → Option String
  | .ok _ => none
  | .invalid (.missing f) => some f
  | .invalid (.wrongType f) => some f

/-- `POST /checksum` on a raw JSON body: validate, then run the endpoint. -/
def handleChecksum (body : Json) : HandlerResult ChecksumResponse :=
  match validateTextOnly body with
  | .ok t => .ok (checksum_endpoint t)
  | .error e => .invalid e

/-- `POST /tokens` on a raw JSON body: validate, then run the endpoint with
the given entropy source. -/
def handleTokens (body : Json) (salts : Entropy) : HandlerResult TokensResponse :=
  match validateTextOnly body with
  | .ok t => .ok (tokens_endpoint t salts)
  | .error e => .invalid e

/-- The method/path pairs `main.py` registers on the FastAPI app, in
registration order. -/
def routes : List (String × String) :=
  [("GET", "/"), ("POST", "/checksum"), ("POST", "/tokens"), ("GET", "/form")]

/-- Framework dispatch: `none` when a handler is registered for the
method/path pair (the handler then determines the response); otherwise the
status the framework answers with by itself — 405 when the path is registered
under a different method only, 404 when no route has the path. -/
def dispatchStatus (method path : String) : Option Nat :=
  if (method, path) ∈ routes then none
  else if routes.any (fun r => r.2 == path) then some 405
  else some 404

/-- The welcome message of the `GET /` route. -/
def welcomeMessage : String :=
  "Welcome to the Improvise Python App — built for mallela sahid"

/-- A response of the whole app to one request. -/
inductive AppResponse where
  | checksumOk (payload : ChecksumResponse)
  | tokensOk (payload : TokensResponse)
  | invalid (issue : ValidationIssue)
  | welcomeOk (message : String)
  | formOk
  | framework (status : Nat)
deriving DecidableEq

/-- HTTP status of an app response. -/
def responseStatus : AppResponse → Nat
  | .checksumOk _ => 200
  | .tokensOk _ => 200
  | .welcomeOk _ => 200
  | .formOk => 200
  | .invalid _ => 422
  | .framework code => code

/-- One request against the app of `main.py`: framework dispatch over the
registered routes, then the matched handler, with the entropy source backing
`secrets` for this call made explicit. -/
def handleRequest (method path : String) (body : Json) (salts : Entropy) : AppResponse :=
  match dispatchStatus method path with
  | some code => .framework code
  | none =>
    if method = "GET" && path = "/" then .welcomeOk welcomeMessage
    else if method = "POST" && path = "/checksum" then
      match validateTextOnly body with
      | .ok t => .checksumOk (checksum_endpoint t)
      | .error e => .invalid e
    else if method = "POST" && path = "/tokens" then
      match validateTextOnly body with
      | .ok t => .tokensOk (tokens_endpoint t salts)
      | .error e => .invalid e
    else .formOk

/-- A fixed entropy source used to instantiate theorems with hypotheses at a
concrete input. -/
def sampleEntropy : Entropy := fun _ => [0, 1, 2, 3, 4, 5, 6, 7]

/-- The sixteen lowercase hexadecimal digit characters. -/
def hexCharSet : List Char :=
  "0123456789abcdef".data

/-- Whether every character of a string is a lowercase hexadecimal digit. -/
def isHexString (t : String) : Bool :=
  t.data.all fun c => decide (c ∈ hexCharSet)

/-- From the words of the claim about validation: the request body is a JSON
object with a `text` field whose value is a string. -/
def hasStringTextField (body : Json) : Bool :=
  match body with
  | .obj fields =>
    match lookupField fields "text" with
    | some (.str _) => true
    | _ => false
  | _ => false

/-- Sanity anchor: the embedded MD5 matches the standard test vector for the
empty message. -/
theorem md5_empty_vector : checksum_md5 "" = "d41d8cd98f00b204e9800998ecf8427e" := by
  decide

/-- Sanity anchor: the embedded MD5 matches the standard test vector for
`"hello"`, the value checked by the test suite of the repository. -/
theorem md5_hello_vector : checksum_md5 "hello" = "5d41402abc4b2a76b9719d911017c592" := by
  decide

/-- Sanity anchor: the embedded SHA-256 matches the standard test vector for
the empty message. -/
theorem sha256_empty_vector :
    sha256Hex "" = "e3b0c44298fc1c149afbf4c8996fb92427ae41e4649b934ca495991b7852b855" := by
  decide

/-- Sanity anchor: the embedded SHA-256 matches the standard test vector for
`"abc"`. -/
theorem sha256_abc_vector :
    sha256Hex "abc" = "ba7816bf8f01cfea414140de5dae2223b00361a396177a9cb410ff61f20015ad" := by
  decide

theorem isHexString_iff (t : String) :
    isHexString t = true ↔ ∀ c ∈ t.data, c ∈ hexCharSet := by
  simp [isHexString, List.all_eq_true]

theorem hexDigit_mem : ∀ n < 16, hexDigit n ∈ hexCharSet := by decide

theorem byteToHex_mem {b : Nat} (hb : b < 256) : ∀ c ∈ byteToHex b, c ∈ hexCharSet := by
  have h1 : b / 16 < 16 := by omega
  have h2 : b % 16 < 16 := by omega
  intro c hc
  simp [byteToHex] at hc
  rcases hc with hc | hc
  · exact hc ▸ hexDigit_mem _ h1
  · exact hc ▸ hexDigit_mem _ h2

theorem flatten_map_byteToHex_length (bs : List Nat) :
    ((bs.map byteToHex).flatten).length = 2 * bs.length := by
  induction bs with
  | nil => rfl
  | cons b rest ih => simp [byteToHex, ih]; omega

theorem bytesToHex_length (bs : List Nat) :
    (bytesToHex bs).length = 2 * bs.length := by
  show ((bs.map byteToHex).flatten).length = 2 * bs.length
  exact flatten_map_byteToHex_length bs

theorem bytesToHex_isHex {bs : List Nat} (hb : ∀ b ∈ bs, b < 256) :
    isHexString (bytesToHex bs) = true := by
  rw [isHexString_iff]
  intro c hc
  have hc : c ∈ (bs.map byteToHex).flatten := hc
  rw [List.mem_flatten] at hc
  obtain ⟨l, hl, hcl⟩ := hc
  rw [List.mem_map] at hl
  obtain ⟨b, hbs, rfl⟩ := hl
  exact byteToHex_mem (hb b hbs) c hcl

theorem mem_wordLE_lt {y x : Nat} (hy : y ∈ wordLE x) : y < 256 := by
  simp [wordLE] at hy
  rcases hy with h | h | h | h <;> omega

theorem mem_wordBE_lt {y x : Nat} (hy : y ∈ wordBE x) : y < 256 := by
  simp [wordBE] at hy
  rcases hy with h | h | h | h <;> omega

theorem md5Bytes_length (msg : List Nat) : (md5Bytes msg).length = 16 := by
  simp [md5Bytes, wordLE]

theorem md5Bytes_lt (msg : List Nat) : ∀ b ∈ md5Bytes msg, b < 256 := by
  intro b hb
  simp only [md5Bytes, List.mem_append] at hb
  rcases hb with ((h | h) | h) | h <;> exact mem_wordLE_lt h

theorem sha256Bytes_length (msg : List Nat) : (sha256Bytes msg).length = 32 := by
  simp [sha256Bytes, wordBE]

theorem sha256Bytes_lt (msg : List Nat) : ∀ b ∈ sha256Bytes msg, b < 256 := by
  intro b hb
  simp only [sha256Bytes, List.mem_append] at hb
  rcases hb with ((((((h | h) | h) | h) | h) | h) | h) | h <;> exact mem_wordBE_lt h

theorem checksum_md5_length (s : String) : (checksum_md5 s).length = 32 := by
  show (bytesToHex (md5Bytes (utf8Encode s))).length = 32
  rw [bytesToHex_length, md5Bytes_length]

theorem checksum_md5_isHex (s : String) : isHexString (checksum_md5 s) = true :=
  bytesToHex_isHex (md5Bytes_lt (utf8Encode s))

theorem sha256Hex_length (s : String) : (sha256Hex s).length = 64 := by
  show (bytesToHex (sha256Bytes (utf8Encode s))).length = 64
  rw [bytesToHex_length, sha256Bytes_length]

theorem sha256Hex_isHex (s : String) : isHexString (sha256Hex s) = true :=
  bytesToHex_isHex (sha256Bytes_lt (utf8Encode s))

theorem foldl_append_eq_map (f : Nat → String) (l : List Nat) (init : List String) :
    l.foldl (fun acc i => acc ++ [f i]) init = init ++ l.map f := by
  induction l generalizing init with
  | nil => simp
  | cons x xs ih => simp [List.foldl_cons, ih]

theorem generate_tokens_eq_map (text : String) (count : Nat) (salts : Entropy) :
    generate_tokens_from_text text count salts
      = (List.range count).map
          (fun i => sha256Hex (text ++ "-" ++ toString i ++ "-" ++ token_hex (salts i))) := by
  show (List.range count).foldl
      (fun tokens i =>
        tokens ++ [sha256Hex (text ++ "-" ++ toString i ++ "-" ++ token_hex (salts i))])
      [] = _
  rw [foldl_append_eq_map]
  simp

theorem generate_tokens_length (text : String) (count : Nat) (salts : Entropy) :
    (generate_tokens_from_text text count salts).length = count := by
  rw [generate_tokens_eq_map]
  simp

theorem generate_tokens_getD (text : String) (count : Nat) (salts : Entropy)
    (i : Nat) (hi : i < count) :
    (generate_tokens_from_text text count salts).getD i ""
      = sha256Hex (text ++ "-" ++ toString i ++ "-" ++ token_hex (salts i)) := by
  rw [generate_tokens_eq_map]
  rw [List.getD_eq_getElem?_getD, List.getElem?_map]
  simp [List.getElem?_range, hi]

theorem token_hex_length {bytes : List Nat} (hlen : bytes.length = 8) :
    (token_hex bytes).length = 16 := by
  show (bytesToHex bytes).length = 16
  rw [bytesToHex_length, hlen]

theorem token_hex_isHex {bytes : List Nat}
    (hbytes : bytes.all (fun b => decide (b < 256)) = true) :
    isHexString (token_hex bytes) = true := by
  apply bytesToHex_isHex
  intro b hb
  have := List.all_eq_true.mp hbytes b hb
  simpa using this

theorem string_append_left_cancel {s t u : String} (h : s ++ t = s ++ u) : t = u := by
  have hd := congrArg String.data h
  simp [String.data_append] at hd
  exact String.ext hd

/-- Two salt draws that render to different hex strings feed different
preimages to SHA-256 at the same text and index: any collision between the
resulting tokens would be a collision of SHA-256 itself on distinct inputs. -/
theorem token_hash_inputs_differ (s : String) (i : Nat) {salt1 salt2 : String}
    (hne : salt1 ≠ salt2) :
    s ++ "-" ++ toString i ++ "-" ++ salt1 ≠ s ++ "-" ++ toString i ++ "-" ++ salt2 := by
  intro h
  apply hne
  have h' : (s ++ "-" ++ toString i ++ "-") ++ salt1
      = (s ++ "-" ++ toString i ++ "-") ++ salt2 := by
    simpa [String.append_assoc] using h
  exact string_append_left_cancel h'

/-- Claim C1: for every string `s`, `POST /checksum` with body
`{"text": s}` returns status 200 with the text echoed unchanged and the
checksum equal to the 32-character lowercase hexadecimal MD5 digest of the
UTF-8 encoding of `s`; in particular the checksum of `"hello"` is
`5d41402abc4b2a76b9719d911017c592`. -/
theorem claim_checksum_endpoint (s : String) :
    handleChecksum (Json.obj [("text", Json.str s)]) = .ok ⟨s, checksum_md5 s⟩
    ∧ handlerStatus (handleChecksum (Json.obj [("text", Json.str s)])) = 200
    ∧ (checksum_md5 s).length = 32
    ∧ isHexString (checksum_md5 s) = true
    ∧ checksum_md5 "hello" = "5d41402abc4b2a76b9719d911017c592" :=
  ⟨rfl, rfl, checksum_md5_length s, checksum_md5_isHex s, md5_hello_vector⟩

/-- Claim C2: for every text string and count 5, the token generation
function returns a list of exactly 5 strings, each of which is exactly 64
lowercase hexadecimal characters. -/
theorem claim_tokens_five_hex (s : String) (salts : Entropy) :
    (generate_tokens_from_text s 5 salts).length = 5
    ∧ (generate_tokens_from_text s 5 salts).all
        (fun t => decide (t.length = 64) && isHexString t) = true := by
  refine ⟨generate_tokens_length s 5 salts, ?_⟩
  rw [List.all_eq_true]
  intro t ht
  rw [generate_tokens_eq_map, List.mem_map] at ht
  obtain ⟨i, _, rfl⟩ := ht
  simp [sha256Hex_length, sha256Hex_isHex]

/-- Claim C3: with the random salts made explicit, for every text `s` and
index `i < 5` the `i`-th token is the SHA-256 hex digest of the single string
combining `s`, the decimal index `i` and the salt freshly drawn for that
index — 8 random bytes rendered as 16 lowercase hex characters — and that
digest differs from what the MD5 checksum algorithm would produce on the same
string: the token digest algorithm is distinct from the checksum algorithm. -/
theorem claim_token_construction (s : String) (salts : Entropy) (i : Nat)
    (hi : i < 5)
    (hlen : (salts i).length = 8)
    (hbytes : (salts i).all (fun b => decide (b < 256)) = true) :
    (generate_tokens_from_text s 5 salts).getD i ""
      = sha256Hex (s ++ "-" ++ toString i ++ "-" ++ token_hex (salts i))
    ∧ (token_hex (salts i)).length = 16
    ∧ isHexString (token_hex (salts i)) = true
    ∧ (sha256Hex (s ++ "-" ++ toString i ++ "-" ++ token_hex (salts i))
        == checksum_md5 (s ++ "-" ++ toString i ++ "-" ++ token_hex (salts i))) = false := by
  refine ⟨generate_tokens_getD s 5 salts i hi, token_hex_length hlen,
    token_hex_isHex hbytes, ?_⟩
  rw [beq_eq_false_iff_ne]
  intro h
  have h1 := sha256Hex_length (s ++ "-" ++ toString i ++ "-" ++ token_hex (salts i))
  have h2 := checksum_md5_length (s ++ "-" ++ toString i ++ "-" ++ token_hex (salts i))
  rw [h] at h1
  omega

/-- Witness for claim C3: text `"hello"`, index 0, and a fixed well-formed
entropy source. -/
theorem claim_token_construction_witness :
    (0 < 5) ∧ (sampleEntropy 0).length = 8
    ∧ (sampleEntropy 0).all (fun b => decide (b < 256)) = true
    ∧ (generate_tokens_from_text "hello" 5 sampleEntropy).getD 0 ""
        = sha256Hex ("hello" ++ "-" ++ toString 0 ++ "-" ++ token_hex (sampleEntropy 0)) :=
  ⟨by decide, rfl, by decide,
   (claim_token_construction "hello" sampleEntropy 0 (by decide) rfl (by decide)).1⟩

/-- Claim C4 counterexample: `main.py` registers no `POST /form` route — the
registered routes are `GET /`, `POST /checksum`, `POST /tokens` and
`GET /form` — so the framework answers a `POST /form` request with status
405 Method Not Allowed, not with a 200 HTML page as the claim states. -/
theorem claim_post_form_counterexample :
    handleRequest "POST" "/form" (Json.obj [("text", Json.str "hello")]) sampleEntropy
      = AppResponse.framework 405
    ∧ (responseStatus
        (handleRequest "POST" "/form" (Json.obj [("text", Json.str "hello")]) sampleEntropy)
        == 200) = false :=
  ⟨rfl, rfl⟩

/-- Claim C4 amended: the app serves the HTML form page only under
`GET /form`; a `POST /form` request matches no registered route, and for
every body and entropy source the framework answers it with
405 Method Not Allowed. -/
theorem claim_post_form_amended (body : Json) (salts : Entropy) :
    handleRequest "POST" "/form" body salts = AppResponse.framework 405
    ∧ dispatchStatus "GET" "/form" = none
    ∧ (("POST", "/form") ∈ routes ↔ False) :=
  ⟨rfl, rfl, by decide⟩

/-- Claim C5: `POST /checksum` and `POST /tokens` answer 200 exactly when the
body has a `text` field holding a string, answer 422 otherwise — no other
status occurs — and on an object body whose `text` field is missing or of the
wrong type the 422 outcome reports the offending field `text`. -/
theorem claim_validation (body : Json) (salts : Entropy) :
    ((handlerStatus (handleChecksum body) = 200) ↔ hasStringTextField body = true)
    ∧ ((handlerStatus (handleTokens body salts) = 200) ↔ hasStringTextField body = true)
    ∧ (handlerStatus (handleChecksum body) = 200 ∨ handlerStatus (handleChecksum body) = 422)
    ∧ (handlerStatus (handleTokens body salts) = 200
        ∨ handlerStatus (handleTokens body salts) = 422)
    ∧ (Json.isObj body = true → hasStringTextField body = false →
        offendingField (handleChecksum body) = some "text"
        ∧ offendingField (handleTokens body salts) = some "text") := by
  cases body with
  | null =>
    simp [handleChecksum, handleTokens, validateTextOnly, hasStringTextField,
      handlerStatus, offendingField, Json.isObj]
  | bool b =>
    simp [handleChecksum, handleTokens, validateTextOnly, hasStringTextField,
      handlerStatus, offendingField, Json.isObj]
  | num n =>
    simp [handleChecksum, handleTokens, validateTextOnly, hasStringTextField,
      handlerStatus, offendingField, Json.isObj]
  | str s =>
    simp [handleChecksum, handleTokens, validateTextOnly, hasStringTextField,
      handlerStatus, offendingField, Json.isObj]
  | arr elements =>
    simp [handleChecksum, handleTokens, validateTextOnly, hasStringTextField,
      handlerStatus, offendingField, Json.isObj]
  | obj fields =>
    cases hl : lookupField fields "text" with
    | none =>
      simp [handleChecksum, handleTokens, validateTextOnly, hasStringTextField,
        handlerStatus, offendingField, Json.isObj, hl]
    | some v =>
      cases v <;>
        simp [handleChecksum, handleTokens, validateTextOnly, hasStringTextField,
          handlerStatus, offendingField, Json.isObj, hl]

/-- Witness for claim C5: a body whose `text` field holds a number is
rejected with offending field `text`, and a body whose `text` field holds a
string is answered with 200 by both endpoints. -/
theorem claim_validation_witness :
    offendingField (handleChecksum (Json.obj [("text", Json.num 7)])) = some "text"
    ∧ offendingField (handleTokens (Json.obj [("other", Json.str "x")]) sampleEntropy)
        = some "text"
    ∧ handlerStatus (handleChecksum (Json.obj [("text", Json.str "hi")])) = 200
    ∧ handlerStatus (handleTokens (Json.obj [("text", Json.str "hi")]) sampleEntropy) = 200 :=
  ⟨((claim_validation (Json.obj [("text", Json.num 7)]) sampleEntropy).2.2.2.2 rfl rfl).1,
   ((claim_validation (Json.obj [("other", Json.str "x")]) sampleEntropy).2.2.2.2 rfl rfl).2,
   (claim_validation (Json.obj [("text", Json.str "hi")]) sampleEntropy).1.mpr rfl,
   (claim_validation (Json.obj [("text", Json.str "hi")]) sampleEntropy).2.1.mpr rfl⟩

/-- Reduction of a `POST /checksum` request through framework dispatch down
to validation: the entropy source plays no part in this route. -/
theorem handleRequest_checksum_eq (body : Json) (salts : Entropy) :
    handleRequest "POST" "/checksum" body salts
      = match validateTextOnly body with
        | .ok t => AppResponse.checksumOk (checksum_endpoint t)
        | .error e => AppResponse.invalid e := rfl

/-- Reduction of a `POST /tokens` request through framework dispatch down to
validation. -/
theorem handleRequest_tokens_eq (body : Json) (salts : Entropy) :
    handleRequest "POST" "/tokens" body salts
      = match validateTextOnly body with
        | .ok t => AppResponse.tokensOk (tokens_endpoint t salts)
        | .error e => AppResponse.invalid e := rfl

/-- Claim C6: for the same text, the checksum field `POST /tokens` returns
equals the checksum field `POST /checksum` returns — both endpoints compute
it with the same `checksum_md5` function. -/
theorem claim_checksum_agree (s : String) (salts : Entropy) :
    (tokens_endpoint ⟨s⟩ salts).checksum = (checksum_endpoint ⟨s⟩).checksum
    ∧ (checksum_endpoint ⟨s⟩).checksum = checksum_md5 s
    ∧ handleTokens (Json.obj [("text", Json.str s)]) salts
        = .ok ⟨generate_tokens_from_text s 5 salts, checksum_md5 s⟩
    ∧ handleChecksum (Json.obj [("text", Json.str s)]) = .ok ⟨s, checksum_md5 s⟩ :=
  ⟨rfl, rfl, rfl, rfl⟩

/-- Claim C7: the checksum computation is deterministic and free of side
effects — as a two-run statement, `POST /checksum` on the same body returns
the same response under any two entropy-source states, and its value is a
function of the text alone. -/
theorem claim_checksum_deterministic (s : String) (body : Json) (salts1 salts2 : Entropy) :
    handleRequest "POST" "/checksum" body salts1
      = handleRequest "POST" "/checksum" body salts2
    ∧ handleRequest "POST" "/checksum" (Json.obj [("text", Json.str s)]) salts1
        = AppResponse.checksumOk ⟨s, checksum_md5 s⟩ := by
  constructor
  · rw [handleRequest_checksum_eq, handleRequest_checksum_eq]
  · rfl

/-- Claim C8: for every string input, the empty string included, the checksum
and token generation functions complete without any error: both endpoints
answer 200 on every string body, and the digests always have their full
shape. -/
theorem claim_no_errors (s : String) (salts : Entropy) :
    responseStatus
        (handleRequest "POST" "/checksum" (Json.obj [("text", Json.str s)]) salts) = 200
    ∧ responseStatus
        (handleRequest "POST" "/tokens" (Json.obj [("text", Json.str s)]) salts) = 200
    ∧ (checksum_md5 s).length = 32
    ∧ (generate_tokens_from_text s 5 salts).length = 5
    ∧ checksum_md5 "" = "d41d8cd98f00b204e9800998ecf8427e"
    ∧ (generate_tokens_from_text "" 5 salts).length = 5 :=
  ⟨rfl, rfl, checksum_md5_length s, generate_tokens_length s 5 salts,
   md5_empty_vector, generate_tokens_length "" 5 salts⟩

/-- Claim C10: for every text, every count and every entropy source, token
generation terminates with a list of exactly `count` tokens, count 0 giving
the empty list, and the token at position `i` is the one computed with
index `i`. -/
theorem claim_tokens_any_count (s : String) (count : Nat) (salts : Entropy)
    (i : Nat) (hi : i < count) :
    (generate_tokens_from_text s count salts).length = count
    ∧ generate_tokens_from_text s 0 salts = []
    ∧ (generate_tokens_from_text s count salts).getD i ""
        = sha256Hex (s ++ "-" ++ toString i ++ "-" ++ token_hex (salts i)) :=
  ⟨generate_tokens_length s count salts, rfl, generate_tokens_getD s count salts i hi⟩

/-- Witness for claim C10: count 3, position 1. -/
theorem claim_tokens_any_count_witness :
    (1 < 3)
    ∧ (generate_tokens_from_text "a" 3 sampleEntropy).length = 3
    ∧ (generate_tokens_from_text "a" 3 sampleEntropy).getD 1 ""
        = sha256Hex ("a" ++ "-" ++ toString 1 ++ "-" ++ token_hex (sampleEntropy 1)) :=
  ⟨by decide, (claim_tokens_any_count "a" 3 sampleEntropy 1 (by decide)).1,
   (claim_tokens_any_count "a" 3 sampleEntropy 1 (by decide)).2.2⟩
